import Mathlib

/-!
Shallow embedding of the predictive-engine pipeline
(`src/models/predictive_engine.py`) and proofs about it.

Modelling conventions:
* Calendar dates are integers counting days since 1970-01-01 (pandas
  `.dt.date` values; time-of-day is already discarded by the source).
* Float columns are modelled as rationals (`ℚ`); a float computation whose
  IEEE result would be non-finite (NaN or ±inf, e.g. a division whose
  denominator is exactly zero) is modelled as `none` of an `Option ℚ`.
* Nullable dataframe columns are `Option` fields; `dropna` is a `filterMap`.
* `pd.DateOffset(years=1)` is modelled as 365 days (the non-leap span);
  the one-year cutoff in `_clean_data` is hard-coded in the source and does
  not depend on the `lookback_days` argument of `prepare_training_data`.
-/

/-- A raw sales row as extracted by `_extract_raw_data` from `sale.order`
(`date_order`, `product_id`, `product_uom_qty`, `price_unit`).
`product_id` and `product_uom_qty` may be null before cleaning. -/
structure RawSalesRow where
  date_order : Int
  product_id : Option Nat
  product_uom_qty : Option ℚ
  price_unit : ℚ
deriving DecidableEq

/-- A sales row after `_clean_data`: the parsed `date` column plus non-null
`product_id` / `product_uom_qty` (nulls were dropped). The original
`date_order` column equals `date` and is never used downstream. -/
structure CleanRow where
  date : Int
  product_id : Nat
  product_uom_qty : ℚ
  price_unit : ℚ
deriving DecidableEq

/-- A row after `_add_time_features`: adds `day_of_week`, `month`,
`is_month_end`. -/
structure TimeRow where
  date : Int
  product_id : Nat
  product_uom_qty : ℚ
  price_unit : ℚ
  day_of_week : Int
  month : Int
  is_month_end : Bool
deriving DecidableEq

/-- A row after `_add_rolling_features`: adds the `7d_avg_sales` column
(named `avg_sales_7d` here because a Lean name cannot start with a digit)
and `sales_growth_30d`.  `sales_growth_30d` is `none` when the float
computation in the source produces a non-finite value (division by a zero
60-day mean). -/
structure RollRow where
  date : Int
  product_id : Nat
  product_uom_qty : ℚ
  price_unit : ℚ
  day_of_week : Int
  month : Int
  is_month_end : Bool
  avg_sales_7d : ℚ
  sales_growth_30d : Option ℚ
deriving DecidableEq

/-- An inventory-level record read from `stock.quant` in
`_add_inventory_features` (`product_id`, `quantity`, `date`). -/
structure InvRecord where
  product_id : Nat
  quantity : ℚ
  date : Int
deriving DecidableEq

/-- A row after the backward asof-join of `_add_inventory_features`:
adds the joined `quantity` column (none when no inventory record matched,
i.e. NaN in pandas) and `demand_supply_ratio` (none when non-finite). -/
structure FeatRow where
  date : Int
  product_id : Nat
  product_uom_qty : ℚ
  price_unit : ℚ
  day_of_week : Int
  month : Int
  is_month_end : Bool
  avg_sales_7d : ℚ
  sales_growth_30d : Option ℚ
  quantity : Option ℚ
  demand_supply_ratio : Option ℚ
deriving DecidableEq

/-- A `product.product` catalog record with its current on-hand quantity,
as used by `_trigger_inventory_alerts` / `_flag_sales_opportunities`. -/
structure ProductRecord where
  id : Nat
  qty_available : ℚ
deriving DecidableEq

/-- A `stock.warehouse.orderpoint` record created by
`_trigger_inventory_alerts` (the warehouse id is a constant lookup and is
omitted). -/
structure ReorderRule where
  product_id : Nat
  product_min_qty : ℚ
  product_max_qty : ℚ
deriving DecidableEq

/-! ### Step 2: `_clean_data` -/

/-- `(pd.to_datetime(today) - pd.DateOffset(years=1)).date()`, modelled as
365 days before `today` (non-leap span). -/
def one_year_before (today : Int) : Int := today - 365

/-- `_clean_data`: parse `date_order` into `date`, keep only rows whose
date is strictly after one year before today, then drop rows with null
`product_id` or `product_uom_qty`.  The cutoff is the hard-coded one-year
offset; no lookback parameter reaches this function in the source. -/
def clean_data (today : Int) (raw : List RawSalesRow) : List CleanRow :=
  (raw.filter (fun r => decide (one_year_before today < r.date_order))).filterMap
    (fun r =>
      match r.product_id, r.product_uom_qty with
      | some pid, some q => some ⟨r.date_order, pid, q, r.price_unit⟩
      | _, _ => none)

/-- Modelled from the spec: the cleaning stage as §4.2 / §6 of the spec
describe it, where a caller-supplied `lookback_days` controls the trailing
window ("keep only rows whose date is strictly after (current date −
lookback_days)").  Used only to compare against `clean_data`, which is the
translation of the source. -/
def clean_data_spec (today lookback_days : Int) (raw : List RawSalesRow) :
    List CleanRow :=
  (raw.filter (fun r => decide (today - lookback_days < r.date_order))).filterMap
    (fun r =>
      match r.product_id, r.product_uom_qty with
      | some pid, some q => some ⟨r.date_order, pid, q, r.price_unit⟩
      | _, _ => none)

/-! ### Step 3: `_add_time_features`

The calendar functions below are the proleptic-Gregorian computations that
`pd.to_datetime(...).dt.dayofweek / .month / .is_month_end` perform, on
days-since-1970-01-01. -/

/-- `dt.dayofweek` (Monday = 0): 1970-01-01 was a Thursday (= 3). -/
def day_of_week_of (z : Int) : Int := (z + 3) % 7

/-- `dt.month`: the Gregorian month (1..12) of the day `z` days after
1970-01-01 (standard civil-from-days computation). -/
def civil_month (z : Int) : Int :=
  let z2 := z + 719468
  let era := Int.fdiv z2 146097
  let doe := (z2 - era * 146097).toNat
  let yoe := (doe - doe / 1460 + doe / 36524 - doe / 146096) / 365
  let doy := doe - (365 * yoe + yoe / 4 - yoe / 100)
  let mp := (5 * doy + 2) / 153
  if mp < 10 then (mp : Int) + 3 else (mp : Int) - 9

/-- `dt.is_month_end`: a day is a month end iff the next day starts a new
month. -/
def is_month_end_of (z : Int) : Bool := civil_month (z + 1) != civil_month z

/-- `_add_time_features`: adds `day_of_week`, `month`, `is_month_end`,
all derived purely from `date`. -/
def add_time_features (df : List CleanRow) : List TimeRow :=
  df.map (fun r =>
    ⟨r.date, r.product_id, r.product_uom_qty, r.price_unit,
      day_of_week_of r.date, civil_month r.date, is_month_end_of r.date⟩)

/-! ### Step 4: `_add_rolling_features` -/

/-- The `df.sort_values(['product_id', 'date'])` order: by product id,
then by date. -/
def row_le (a b : TimeRow) : Prop :=
  a.product_id < b.product_id ∨ (a.product_id = b.product_id ∧ a.date ≤ b.date)

instance : DecidableRel row_le := fun a b =>
  inferInstanceAs (Decidable
    (a.product_id < b.product_id ∨ (a.product_id = b.product_id ∧ a.date ≤ b.date)))

instance : IsTotal TimeRow row_le := by
  constructor
  intro a b
  unfold row_le
  omega

instance : IsTrans TimeRow row_le := by
  constructor
  intro a b c hab hbc
  unfold row_le at hab hbc ⊢
  omega

/-- `df.sort_values(['product_id', 'date'])`. -/
def sort_rows (df : List TimeRow) : List TimeRow := List.insertionSort row_le df

/-- The quantities contributing to a time-based trailing rolling window
(pandas `rolling(window=wD)` with the default right-closed interval) at
position `i` of the sorted frame: rows at positions `≤ i`, restricted to
the same product group (`groupby('product_id')`) and to dates in
`(dateᵢ − w, dateᵢ]`. -/
def window_vals (sorted : List TimeRow) (i : Nat) (w : Int) : List ℚ :=
  match sorted[i]? with
  | none => []
  | some r =>
    ((sorted.take (i + 1)).filter
        (fun s => s.product_id == r.product_id && decide (r.date - w < s.date))).map
      (fun s => s.product_uom_qty)

/-- The mean of a list of rationals (`.mean()`; windows here always
contain at least the current row, so the length is never zero where this
is used). -/
def qmean (l : List ℚ) : ℚ := l.sum / (l.length : ℚ)

/-- `_add_rolling_features`: sort by (product_id, date), then per product
compute the time-based 7-day trailing mean of `product_uom_qty`
(`7d_avg_sales`) and the 30-day over 60-day trailing-mean ratio minus one
(`sales_growth_30d`).  The `window_days` argument is received (as in the
source) but unused.  A zero 60-day mean makes the float division
non-finite, modelled as `none`. -/
def add_rolling_features (window_days : Nat) (df : List TimeRow) : List RollRow :=
  let sorted := sort_rows df
  sorted.enum.map (fun ir =>
    let i := ir.1
    let r := ir.2
    let mean30 := qmean (window_vals sorted i 30)
    let mean60 := qmean (window_vals sorted i 60)
    { date := r.date
      product_id := r.product_id
      product_uom_qty := r.product_uom_qty
      price_unit := r.price_unit
      day_of_week := r.day_of_week
      month := r.month
      is_month_end := r.is_month_end
      avg_sales_7d := qmean (window_vals sorted i 7)
      sales_growth_30d :=
        if mean60 = 0 then none else some (mean30 / mean60 - 1) })

/-! ### Step 5: `_add_inventory_features` -/

/-- The `inventory_df.sort_values('date')` order. -/
def inv_date_le (a b : InvRecord) : Prop := a.date ≤ b.date

instance : DecidableRel inv_date_le := fun a b =>
  inferInstanceAs (Decidable (a.date ≤ b.date))

instance : IsTotal InvRecord inv_date_le := ⟨fun a b => Int.le_total a.date b.date⟩

instance : IsTrans InvRecord inv_date_le :=
  ⟨fun _ _ _ hab hbc => Int.le_trans hab hbc⟩

/-- `inventory_df.sort_values('date')`. -/
def sort_inventory (inv : List InvRecord) : List InvRecord :=
  List.insertionSort inv_date_le inv

/-- The record `pd.merge_asof(..., on='date', by='product_id',
direction='backward')` matches to a left row with product `pid` and date
`d`: the last record, in the date-sorted inventory frame, with the same
product id and a date `≤ d`. -/
def asof_match (inv : List InvRecord) (pid : Nat) (d : Int) : Option InvRecord :=
  ((sort_inventory inv).filter
      (fun m => m.product_id == pid && decide (m.date ≤ d))).getLast?

/-- One joined row of `_add_inventory_features`: the asof-matched
`quantity` column (NaN, i.e. `none`, when no record matched) and
`demand_supply_ratio = product_uom_qty / (quantity + 1e-6)` (`none` when
the float value would be non-finite: no match, or a denominator of exactly
zero). -/
def join_row (inv : List InvRecord) (r : RollRow) : FeatRow :=
  let m := asof_match inv r.product_id r.date
  { date := r.date
    product_id := r.product_id
    product_uom_qty := r.product_uom_qty
    price_unit := r.price_unit
    day_of_week := r.day_of_week
    month := r.month
    is_month_end := r.is_month_end
    avg_sales_7d := r.avg_sales_7d
    sales_growth_30d := r.sales_growth_30d
    quantity := m.map (fun q => q.quantity)
    demand_supply_ratio :=
      m.bind (fun q =>
        if q.quantity + (1e-6 : ℚ) = 0 then none
        else some (r.product_uom_qty / (q.quantity + (1e-6 : ℚ)))) }

/-- The `df.sort_values('date')` order on the left (sales) frame. -/
def roll_date_le (a b : RollRow) : Prop := a.date ≤ b.date

instance : DecidableRel roll_date_le := fun a b =>
  inferInstanceAs (Decidable (a.date ≤ b.date))

/-- The output of `_add_inventory_features`: when the inventory snapshot is
empty the input frame is returned unchanged (its schema has no
`demand_supply_ratio` column); otherwise the joined frame. -/
inductive JoinOutput where
  | noInventory : List RollRow → JoinOutput
  | joined : List FeatRow → JoinOutput
deriving DecidableEq

/-- `_add_inventory_features`: read the inventory snapshot; if it is
non-empty, backward-asof-join it onto the date-sorted sales frame and add
`demand_supply_ratio`; otherwise return the input unchanged. -/
def add_inventory_features (inventory : List InvRecord) (df : List RollRow) :
    JoinOutput :=
  if inventory.isEmpty then JoinOutput.noInventory df
  else JoinOutput.joined ((List.insertionSort roll_date_le df).map (join_row inventory))

/-- `prepare_training_data`: the full pipeline.  `lookback_days`
(default 365 in the source) is passed to `_add_rolling_features` as
`window_days`, where it is unused; `_clean_data` receives no lookback
parameter. -/
def prepare_training_data (today : Int) (lookback_days : Nat)
    (raw : List RawSalesRow) (inventory : List InvRecord) : JoinOutput :=
  add_inventory_features inventory
    (add_rolling_features lookback_days (add_time_features (clean_data today raw)))

/-! ### `_train_model`, `_generate_predictions` -/

/-- The feature columns `_train_model` selects:
`df[['day_of_week', 'month', '7d_avg_sales', 'demand_supply_ratio']]`. -/
def train_feature_columns : List String :=
  ["day_of_week", "month", "7d_avg_sales", "demand_supply_ratio"]

/-- Whether the frame passed downstream carries a `demand_supply_ratio`
column. -/
def join_output_has_ratio_column : JoinOutput → Bool
  | JoinOutput.noInventory _ => false
  | JoinOutput.joined _ => true

/-- `_generate_predictions`: for each catalog product id, select its rows
(`df[df['product_id'] == product.id]`) and take the last one
(`.iloc[-1]`); on an empty selection `.iloc[-1]` raises an `IndexError`
(modelled as `Except.error`).  Otherwise feed today's day-of-week and
month plus the latest rolling features to the opaque trained model. -/
def generate_predictions (model : List (Option ℚ) → ℚ)
    (today_dow today_month : ℚ) (products : List Nat) (df : List FeatRow) :
    Except String (List (Nat × ℚ)) :=
  match products with
  | [] => Except.ok []
  | p :: rest =>
    match (df.filter (fun r => r.product_id == p)).getLast? with
    | none => Except.error "single positional indexer is out-of-bounds"
    | some latest =>
      match generate_predictions model today_dow today_month rest df with
      | Except.error e => Except.error e
      | Except.ok m =>
        Except.ok ((p, model [some today_dow, some today_month,
          some latest.avg_sales_7d, latest.demand_supply_ratio]) :: m)

/-! ### `_trigger_inventory_alerts`, `_flag_sales_opportunities` -/

/-- `predictions.get(product.id)` on the PredictionMap (a python dict,
modelled as an association list). -/
def lookup_prediction (preds : List (Nat × ℚ)) (pid : Nat) : Option ℚ :=
  (preds.find? (fun pr => pr.1 == pid)).map (fun pr => pr.2)

/-- `predictions.get(product.id, 0)`: the lookup with default `0` used by
both action loops. -/
def get_prediction_default (preds : List (Nat × ℚ)) (pid : Nat) : ℚ :=
  (lookup_prediction preds pid).getD 0

/-- The body of the `_trigger_inventory_alerts` loop for one product:
when `current_stock < predicted_demand`, create a reorder rule with
`product_min_qty = predicted_demand * 1.2` and
`product_max_qty = predicted_demand * 1.5` (the chatter note is posted
under exactly the same condition). -/
def reorder_directive (preds : List (Nat × ℚ)) (p : ProductRecord) :
    Option ReorderRule :=
  let predicted_demand := get_prediction_default preds p.id
  if p.qty_available < predicted_demand then
    some ⟨p.id, predicted_demand * (1.2 : ℚ), predicted_demand * (1.5 : ℚ)⟩
  else none

/-- `_trigger_inventory_alerts` over the whole catalog. -/
def trigger_inventory_alerts (preds : List (Nat × ℚ))
    (products : List ProductRecord) : List ReorderRule :=
  products.filterMap (reorder_directive preds)

/-- The body of the `_flag_sales_opportunities` loop for one product:
when `predictions.get(product.id, 0) > product.qty_available * 1.5`, the
opportunity tag is added to the product. -/
def opportunity_flag (preds : List (Nat × ℚ)) (p : ProductRecord) : Option Nat :=
  if get_prediction_default preds p.id > p.qty_available * (1.5 : ℚ) then
    some p.id
  else none

/-- `_flag_sales_opportunities` over the whole catalog: ids of the tagged
products. -/
def flag_sales_opportunities (preds : List (Nat × ℚ))
    (products : List ProductRecord) : List Nat :=
  products.filterMap (opportunity_flag preds)

/-! ### Concrete inputs used by witnesses and counterexamples -/

/-- Inventory snapshot: three records for product 1 (dates 5, 8 and a
future-dated 12) and one for product 2. -/
def c1_inventory : List InvRecord := [⟨1, 10, 5⟩, ⟨1, 3, 8⟩, ⟨2, 4, 6⟩, ⟨1, 7, 12⟩]

/-- A sales row for product 1 dated 9: the backward asof-join must pick
the date-8 record, not the future date-12 record. -/
def c1_row : RollRow := ⟨9, 1, 2, 1, 0, 1, false, 2, some 0⟩

/-- Two sales rows for product 1, dated 10 and 12. -/
def c2_df : List TimeRow := [⟨10, 1, 4, 1, 0, 1, false⟩, ⟨12, 1, 6, 1, 0, 1, false⟩]

/-- One sales row dated 100 days before "today" = 1000. -/
def c4_raw : List RawSalesRow := [⟨900, some 1, some 5, 2⟩]

/-- A single sales row with `product_uom_qty = 0`: its own 60-day trailing
mean is zero. -/
def c5_row : TimeRow := ⟨10, 1, 0, 1, 0, 1, false⟩

/-- An inventory record whose on-hand quantity is exactly `-1e-6`, making
the ratio denominator exactly zero. -/
def c6_inventory : List InvRecord := [⟨1, -(1e-6 : ℚ), 5⟩]

/-- A sales row for product 1 dated 6 with quantity sold 3. -/
def c6_row : RollRow := ⟨6, 1, 3, 1, 0, 1, false, 3, some 0⟩

/-- An inventory record with on-hand quantity exactly 0. -/
def c6_zero_inventory : List InvRecord := [⟨1, 0, 5⟩]

/-- One sales row dated 900 days before "today" = 1000: it is dropped by
the one-year cleaning window. -/
def c9_raw : List RawSalesRow := [⟨100, some 1, some 5, 2⟩]

/-! ### Helper lemmas -/

/-- In a list sorted by `R`, every member is related to (or equal to) the
last element. -/
theorem sorted_rel_getLast {α : Type} {R : α → α → Prop} :
    ∀ (l : List α), l.Sorted R → ∀ x ∈ l, ∀ b, l.getLast? = some b →
      x = b ∨ R x b := by
  intro l
  induction l with
  | nil => intro _ x hx; simp at hx
  | cons a as ih =>
    intro hs x hx b hb
    rw [List.sorted_cons] at hs
    obtain ⟨ha, has⟩ := hs
    cases as with
    | nil =>
      simp at hb hx
      subst hb
      subst hx
      exact Or.inl rfl
    | cons c cs =>
      rw [List.getLast?_cons_cons] at hb
      rcases List.mem_cons.mp hx with hxa | hxas
      · subst hxa
        exact Or.inr (ha b (List.mem_of_getLast?_eq_some hb))
      · exact ih has x hxas b hb

/-- In a list sorted by `R`, every element of the prefix `take (i + 1)` is
related to (or equal to) the element at index `i`. -/
theorem sorted_take_rel {α : Type} {R : α → α → Prop} :
    ∀ (l : List α), l.Sorted R → ∀ (i : Nat) (y : α), l[i]? = some y →
      ∀ x ∈ l.take (i + 1), R x y ∨ x = y := by
  intro l
  induction l with
  | nil => intro _ i y hy; simp at hy
  | cons a as ih =>
    intro hs i y hy x hx
    rw [List.sorted_cons] at hs
    obtain ⟨ha, has⟩ := hs
    cases i with
    | zero =>
      simp at hy
      subst hy
      simp [List.take_succ_cons] at hx
      exact Or.inr hx
    | succ i =>
      simp only [List.getElem?_cons_succ] at hy
      simp only [List.take_succ_cons, List.mem_cons] at hx
      rcases hx with hxa | hxas
      · subst hxa
        exact Or.inl (ha y (List.getElem?_mem hy))
      · exact ih has i y hy x hxas

/-! ### C1: the backward asof-join -/

/-- C1: whenever the backward asof-join of `_add_inventory_features`
matches an inventory record onto a sales row, that record has the same
`product_id`, is dated at or before the sales row's date (never after),
and is the most recent such record in the snapshot; the joined `quantity`
column is that record's quantity. -/
theorem asof_join_backward (inv : List InvRecord) (r : RollRow) (m : InvRecord)
    (h : asof_match inv r.product_id r.date = some m) :
    m.product_id = r.product_id ∧ m.date ≤ r.date ∧
      (∀ m2 ∈ inv, m2.product_id = r.product_id → m2.date ≤ r.date →
        m2.date ≤ m.date) ∧
      (join_row inv r).quantity = some m.quantity := by
  unfold asof_match at h
  have hmem := List.mem_of_getLast?_eq_some h
  obtain ⟨hin, hpred⟩ := List.mem_filter.mp hmem
  rw [Bool.and_eq_true] at hpred
  have hpid : m.product_id = r.product_id := by simpa using hpred.1
  have hdate : m.date ≤ r.date := by simpa using hpred.2
  refine ⟨hpid, hdate, ?_, ?_⟩
  · intro m2 hm2 hpid2 hdate2
    have hsorted :
        ((sort_inventory inv).filter
          (fun q => q.product_id == r.product_id && decide (q.date ≤ r.date))).Sorted
          inv_date_le :=
      List.Pairwise.sublist (List.filter_sublist _)
        (List.sorted_insertionSort inv_date_le inv)
    have hm2sort : m2 ∈ sort_inventory inv := by
      unfold sort_inventory
      rw [List.mem_insertionSort]
      exact hm2
    have hm2f : m2 ∈ (sort_inventory inv).filter
        (fun q => q.product_id == r.product_id && decide (q.date ≤ r.date)) := by
      rw [List.mem_filter]
      exact ⟨hm2sort, by simp [hpid2, hdate2]⟩
    rcases sorted_rel_getLast _ hsorted m2 hm2f m h with heq | hle
    · rw [heq]
    · exact hle
  · simp [join_row, asof_match, h]

/-- Witness for C1 at a concrete input: product 1's date-9 sales row is
matched to its date-8 inventory record, not to the future date-12 one. -/
theorem asof_join_backward_witness :
    (⟨1, 3, 8⟩ : InvRecord).product_id = c1_row.product_id ∧
      (⟨1, 3, 8⟩ : InvRecord).date ≤ c1_row.date ∧
      (∀ m2 ∈ c1_inventory, m2.product_id = c1_row.product_id →
        m2.date ≤ c1_row.date → m2.date ≤ (⟨1, 3, 8⟩ : InvRecord).date) ∧
      (join_row c1_inventory c1_row).quantity =
        some (⟨1, 3, 8⟩ : InvRecord).quantity :=
  asof_join_backward c1_inventory c1_row ⟨1, 3, 8⟩ (by decide)

/-! ### C2: rolling windows use only same-product history, no lookahead -/

/-- C2: `_add_rolling_features` processes rows sorted by
(product_id, date), and every quantity contributing to any of its
time-based trailing windows (the 7-day window of `7d_avg_sales` and the
30/60-day windows of `sales_growth_30d`) comes from a row of the input
frame with the same `product_id` and a date at or before the current
row's date: no lookahead and no mixing of products. -/
theorem rolling_no_lookahead (df : List TimeRow) :
    (sort_rows df).Sorted row_le ∧
      ∀ (i : Nat) (r : TimeRow) (w : Int) (q : ℚ),
        (sort_rows df)[i]? = some r → q ∈ window_vals (sort_rows df) i w →
        ∃ s ∈ df, s.product_id = r.product_id ∧ s.date ≤ r.date ∧
          q = s.product_uom_qty := by
  refine ⟨List.sorted_insertionSort row_le df, ?_⟩
  intro i r w q hi hq
  simp only [window_vals, hi] at hq
  obtain ⟨s, hsf, hsq⟩ := List.mem_map.mp hq
  obtain ⟨hstake, hpred⟩ := List.mem_filter.mp hsf
  rw [Bool.and_eq_true] at hpred
  have hpid : s.product_id = r.product_id := by simpa using hpred.1
  have hrel := sorted_take_rel (sort_rows df)
    (List.sorted_insertionSort row_le df) i r hi s hstake
  have hdate : s.date ≤ r.date := by
    rcases hrel with hR | heq
    · rcases hR with hlt | hand
      · omega
      · exact hand.2
    · rw [heq]
  have hsd : s ∈ df := (List.mem_insertionSort row_le).mp (List.mem_of_mem_take hstake)
  exact ⟨s, hsd, hpid, hdate, hsq.symm⟩

/-- Witness for C2 at a concrete input: the quantity 4 contributing to the
window of the date-12 row comes from the same product's date-10 row. -/
theorem rolling_no_lookahead_witness :
    ∃ s ∈ c2_df, s.product_id = (⟨12, 1, 6, 1, 0, 1, false⟩ : TimeRow).product_id ∧
      s.date ≤ (⟨12, 1, 6, 1, 0, 1, false⟩ : TimeRow).date ∧
      (4 : ℚ) = s.product_uom_qty :=
  (rolling_no_lookahead c2_df).2 1 ⟨12, 1, 6, 1, 0, 1, false⟩ 7 4
    (by decide) (by decide)

/-! ### C3: the ActionEngine thresholds -/

/-- C3: for every product with an entry in the PredictionMap, the action
loops issue a reorder directive iff `current_stock < predicted_demand`
(with `product_min_qty = predicted_demand * 1.2` and
`product_max_qty = predicted_demand * 1.5`) and apply the opportunity tag
iff `predicted_demand > current_stock * 1.5`; each decision depends only
on its own inequality, so a product can trigger both, one, or neither. -/
theorem action_engine_thresholds (preds : List (Nat × ℚ)) (p : ProductRecord)
    (d : ℚ) (h : lookup_prediction preds p.id = some d) :
    (p.qty_available < d →
      reorder_directive preds p = some ⟨p.id, d * (1.2 : ℚ), d * (1.5 : ℚ)⟩) ∧
      (¬ p.qty_available < d → reorder_directive preds p = none) ∧
      (p.qty_available * (1.5 : ℚ) < d → opportunity_flag preds p = some p.id) ∧
      (¬ p.qty_available * (1.5 : ℚ) < d → opportunity_flag preds p = none) := by
  have hd : get_prediction_default preds p.id = d := by
    unfold get_prediction_default
    rw [h]
    rfl
  refine ⟨?_, ?_, ?_, ?_⟩ <;> intro hc
  · simp [reorder_directive, hd, hc]
  · simp [reorder_directive, hd, hc]
  · simp [opportunity_flag, hd, hc]
  · simp [opportunity_flag, hd, hc]

/-- Witness for C3 at a concrete input: product 1 with stock 3 and
prediction 10 triggers both the reorder directive (min 12, max 15) and the
opportunity tag. -/
theorem action_engine_thresholds_witness :
    reorder_directive [(1, 10)] ⟨1, 3⟩ =
        some ⟨1, (10 : ℚ) * (1.2 : ℚ), (10 : ℚ) * (1.5 : ℚ)⟩ ∧
      opportunity_flag [(1, 10)] ⟨1, 3⟩ = some 1 :=
  ⟨(action_engine_thresholds [(1, 10)] ⟨1, 3⟩ 10 rfl).1 (by norm_num),
    (action_engine_thresholds [(1, 10)] ⟨1, 3⟩ 10 rfl).2.2.1 (by norm_num)⟩

/-! ### C4: the lookback parameter does not reach the cleaning stage -/

/-- Counterexample to C4: with today = 1000 and `lookback_days = 10`, the
source's cleaning stage keeps the row dated 900 (it is within the
hard-coded one-year window), whereas the claimed trailing window
(date strictly after today − lookback_days, spec-modelled as
`clean_data_spec`) would drop it. -/
theorem clean_lookback_counterexample :
    clean_data 1000 c4_raw = [⟨900, 1, 5, 2⟩] ∧
      clean_data_spec 1000 10 c4_raw = [] ∧
      ¬ ((1000 : Int) - 10 < 900) := by
  refine ⟨by decide, by decide, by decide⟩

/-- C4 as amended: the cleaning stage keeps exactly the rows dated
strictly after the hard-coded one-year (365-day) offset before today,
i.e. it coincides with the spec's formula only at lookback = 365, and the
`lookback_days` argument of `prepare_training_data` has no effect on the
pipeline's output at all (it is forwarded to the rolling step, which
ignores it). -/
theorem clean_fixed_one_year_window :
    ∀ (today : Int) (raw : List RawSalesRow),
      clean_data today raw = clean_data_spec today 365 raw ∧
      ∀ (lb1 lb2 : Nat) (inventory : List InvRecord),
        prepare_training_data today lb1 raw inventory =
          prepare_training_data today lb2 raw inventory := by
  intro today raw
  exact ⟨rfl, fun _ _ _ => rfl⟩

/-! ### C5: a zero 60-day mean is not substituted with 0 -/

/-- C5 (documents the code bug): on a single sales row with quantity 0,
the 60-day trailing mean is 0 and the source computes
`sales_growth_30d` as a division by that zero mean, producing a
non-finite float (modelled `none`) instead of the neutral value 0 the
spec requires. -/
theorem growth_zero_mean_not_substituted :
    (add_rolling_features 365 [c5_row]).map (fun r => r.sales_growth_30d) =
      [none] := by
  norm_num [add_rolling_features, sort_rows, row_le, window_vals, qmean,
    List.enum, c5_row]

/-! ### C6: finiteness of demand_supply_ratio -/

/-- Counterexample to C6: an inventory record with on-hand quantity
exactly `-1e-6` makes the denominator `quantity + 1e-6` exactly zero, so
the ratio of a matched sales row is non-finite (`none`), although a
matching inventory record exists. -/
theorem ratio_not_always_finite_counterexample :
    asof_match c6_inventory c6_row.product_id c6_row.date =
        some ⟨1, -(1e-6 : ℚ), 5⟩ ∧
      (join_row c6_inventory c6_row).demand_supply_ratio = none := by
  constructor
  · norm_num [asof_match, sort_inventory, c6_inventory, c6_row]
  · norm_num [join_row, asof_match, sort_inventory, c6_inventory, c6_row]

/-- C6 as amended: for every sales row with a matching inventory record,
`demand_supply_ratio = product_uom_qty / (quantity + 1e-6)` and is finite
whenever the matched on-hand quantity is not exactly `-1e-6` — in
particular for every nonnegative on-hand quantity, including exactly 0. -/
theorem ratio_finite_unless_neg_eps (inv : List InvRecord) (r : RollRow)
    (m : InvRecord) (h : asof_match inv r.product_id r.date = some m)
    (hq : m.quantity ≠ -(1e-6 : ℚ)) :
    (join_row inv r).demand_supply_ratio =
      some (r.product_uom_qty / (m.quantity + (1e-6 : ℚ))) := by
  have hne : m.quantity + (1e-6 : ℚ) ≠ 0 := fun hc => hq (by linarith)
  simp only [join_row]
  rw [h]
  simp [hne]

/-- Witness for C6 (amended) at a concrete input with on-hand quantity
exactly 0: the ratio is the finite value `3 / (0 + 1e-6)`. -/
theorem ratio_finite_unless_neg_eps_witness :
    (join_row c6_zero_inventory c6_row).demand_supply_ratio =
      some ((3 : ℚ) / (0 + (1e-6 : ℚ))) :=
  ratio_finite_unless_neg_eps c6_zero_inventory c6_row ⟨1, 0, 5⟩
    (by decide) (by norm_num)

/-! ### C7: products absent from the PredictionMap -/

/-- Counterexample to C7: for a product absent from the PredictionMap the
loops use the default prediction 0, so a product with negative on-hand
stock (possible in the source's data model) still triggers both a reorder
directive (with min = max = 0) and the opportunity tag. -/
theorem absent_product_action_counterexample :
    lookup_prediction [] 1 = none ∧
      reorder_directive [] ⟨1, -1⟩ = some ⟨1, 0, 0⟩ ∧
      opportunity_flag [] ⟨1, -1⟩ = some 1 := by
  refine ⟨rfl, ?_, ?_⟩
  · norm_num [reorder_directive, get_prediction_default, lookup_prediction]
  · norm_num [opportunity_flag, get_prediction_default, lookup_prediction]

/-- C7 as amended: for a product absent from the PredictionMap the
default prediction is 0, so no action is taken provided the product's
on-hand quantity is nonnegative; only a negative stock can trigger an
action for such a product. -/
theorem no_action_absent_product_nonneg_stock (preds : List (Nat × ℚ))
    (p : ProductRecord) (habs : lookup_prediction preds p.id = none)
    (hst : 0 ≤ p.qty_available) :
    reorder_directive preds p = none ∧ opportunity_flag preds p = none := by
  have hd : get_prediction_default preds p.id = 0 := by
    unfold get_prediction_default
    rw [habs]
    rfl
  have h15 : (0 : ℚ) ≤ p.qty_available * (1.5 : ℚ) :=
    mul_nonneg hst (by norm_num)
  constructor
  · simp [reorder_directive, hd, not_lt.mpr hst]
  · simp [opportunity_flag, hd, not_lt.mpr h15]

/-- Witness for C7 (amended) at a concrete input: product 2 with stock 5
and an empty PredictionMap triggers nothing. -/
theorem no_action_absent_product_nonneg_stock_witness :
    reorder_directive [] ⟨2, 5⟩ = none ∧ opportunity_flag [] ⟨2, 5⟩ = none :=
  no_action_absent_product_nonneg_stock [] ⟨2, 5⟩ rfl (by norm_num)

/-! ### C8: the Predictor crashes on a product with no feature rows -/

/-- C8 (documents the code bug): `_generate_predictions` evaluated at a
catalog containing product 5 and an empty feature table raises the
`IndexError` of `.iloc[-1]` on an empty selection (modelled as
`Except.error`), instead of skipping the product as the spec requires. -/
theorem predictor_errors_on_missing_history :
    generate_predictions (fun _ => 0) 0 0 [5] [] =
      Except.error "single positional indexer is out-of-bounds" := rfl

/-! ### C9: the pipeline proceeds silently on an empty cleaned frame -/

/-- C9 (documents the code bug): on raw data whose only row is older than
the cleaning window, `_clean_data` leaves zero rows, and
`prepare_training_data` proceeds and returns an empty feature table
instead of failing with `InsufficientData`. -/
theorem pipeline_proceeds_on_empty_clean :
    clean_data 1000 c9_raw = [] ∧
      prepare_training_data 1000 365 c9_raw [] =
        JoinOutput.noInventory [] := by
  refine ⟨by decide, by decide⟩

/-! ### C10: an empty inventory snapshot skips the join -/

/-- C10: when the inventory snapshot read inside
`_add_inventory_features` is empty, the input frame is returned unchanged
— no join is performed and the output carries no `demand_supply_ratio`
column, although `demand_supply_ratio` is one of the feature columns
`_train_model` selects. -/
theorem empty_inventory_join_unchanged :
    ∀ df : List RollRow,
      add_inventory_features [] df = JoinOutput.noInventory df ∧
        join_output_has_ratio_column (add_inventory_features [] df) = false ∧
        "demand_supply_ratio" ∈ train_feature_columns := by
  intro df
  refine ⟨rfl, rfl, ?_⟩
  simp [train_feature_columns]
